import Mathlib

set_option maxHeartbeats 1000000

deriving instance DecidableEq for Except

namespace ValidateCommit

/-- Rust string slices are modelled as lists of characters; all offsets count
characters (the source counts bytes, which agrees on ASCII input). -/
abbrev Str := List Char

/-- Model of Rust `str::starts_with`. -/
def startsWith (p s : Str) : Bool := p.isPrefixOf s

/-- Splits a character list at every newline character, keeping every segment,
including a trailing empty one.  Helper for `rustLines`. -/
def splitNl : Str → List Str
  | [] => [[]]
  | c :: cs =>
    if c = '\n' then [] :: splitNl cs
    else
      match splitNl cs with
      | [] => [[c]]
      | l :: ls => (c :: l) :: ls

/-- Removes one trailing carriage return from a newline-terminated segment,
as `str::lines` does. -/
def stripCr (l : Str) : Str := if l.getLast? = some '\r' then l.dropLast else l

/-- Model of Rust `str::lines`: split at newlines, strip a carriage return at
the end of each newline-terminated segment, and drop a final empty segment. -/
def rustLines (s : Str) : List Str :=
  match (splitNl s).getLast? with
  | some [] => (splitNl s).dropLast.map stripCr
  | some l => (splitNl s).dropLast.map stripCr ++ [l]
  | none => []

/-- Model of Rust `str::trim` (whitespace as in `Char.isWhitespace`). -/
def trim (s : Str) : Str :=
  ((s.dropWhile Char.isWhitespace).reverse.dropWhile Char.isWhitespace).reverse

/-- `FormatErrorKind` from `src/errors.rs`, together with the
`MissingWhitespace` variant that `src/parse.rs` raises (the spec lists it in
the error taxonomy as well). -/
inductive FormatErrorKind where
  | CapitalizedFirstLetter
  | EmptyCommitSubject
  | EmptyCommitType
  | InvalidCommitType
  | LineTooLong (limit : Nat)
  | MissingParenthesis
  | MissingWhitespace
  | MisplacedWhitespace
  | NoColumn
  | NonEmptySecondLine
deriving DecidableEq, Repr

/-- `Span` from `src/errors.rs`: the offending line together with a character
offset into it.  The source has no line-number field. -/
structure Span where
  line : Str
  pos : Nat
deriving DecidableEq, Repr

/-- `FormatError` from `src/errors.rs`: an error kind with an optional span.
`FormatError::new(line, pos).context(kind)` from `lib.rs` is modelled as the
same data (kind plus a span). -/
structure FormatError where
  kind : FormatErrorKind
  location : Option Span
deriving DecidableEq, Repr

/-- `CommitType` from `src/lib.rs`. -/
inductive CommitType where
  | Feat
  | Fix
  | Docs
  | Style
  | Refactor
  | Perf
  | Test
  | Chore
deriving DecidableEq, Repr

/-- `impl From<CommitType> for &'static str` in `src/lib.rs` (note: the source
maps `Docs` to the string `"docx"`). -/
def commit_type_to_str : CommitType → Str
  | .Feat => "feat".data
  | .Fix => "fix".data
  | .Docs => "docx".data
  | .Style => "style".data
  | .Refactor => "refactor".data
  | .Perf => "perf".data
  | .Test => "test".data
  | .Chore => "chore".data

/-- `impl FromStr for CommitType` in `src/lib.rs`. -/
def commit_type_from_str (s : Str) : Except FormatErrorKind CommitType :=
  if s = "feat".data then .ok .Feat
  else if s = "fix".data then .ok .Fix
  else if s = "docs".data then .ok .Docs
  else if s = "style".data then .ok .Style
  else if s = "refactor".data then .ok .Refactor
  else if s = "perf".data then .ok .Perf
  else if s = "test".data then .ok .Test
  else if s = "chore".data then .ok .Chore
  else .error .InvalidCommitType

/-- `CommitHeader` from `src/lib.rs`. -/
structure CommitHeader where
  commit_type : CommitType
  scope : Option Str
  subject : Str
deriving DecidableEq, Repr

/-- `CommitMsg` from `src/lib.rs`. -/
structure CommitMsg where
  header : CommitHeader
deriving DecidableEq, Repr

/-- `discard_autosquash` from `src/parse.rs`. -/
def discard_autosquash (line : Str) : Str :=
  if startsWith "fixup! ".data line then line.drop 7
  else if startsWith "squash! ".data line then line.drop 8
  else line

/-- `is_trimmed` from `src/parse.rs`. -/
def is_trimmed (s : Str) : Bool := s = trim s

/-- `parse_commit_type_and_scope` from `src/parse.rs`. -/
def parse_commit_type_and_scope (cts : Str) :
    Except FormatError (Str × Option Str) :=
  match cts with
  | [] => .error ⟨.EmptyCommitType, none⟩
  | first :: rest =>
    if first.isWhitespace then
      .error ⟨.MisplacedWhitespace, some ⟨first :: rest, 0⟩⟩
    else if ((first :: rest).getLast (List.cons_ne_nil first rest)).isWhitespace then
      .error ⟨.MisplacedWhitespace, some ⟨first :: rest, (first :: rest).length - 1⟩⟩
    else if (first :: rest).getLast (List.cons_ne_nil first rest) = ')' then
      match (first :: rest).findIdx? (fun c => c = '(') with
      | none => .error ⟨.MissingParenthesis, none⟩
      | some op =>
        .ok ((first :: rest).take op,
          some (((first :: rest).drop (op + 1)).take ((first :: rest).length - 1 - (op + 1))))
    else
      .ok (first :: rest, none)

/-- Body of `parse_commit_header` from `src/parse.rs`, operating on the line
after autosquash stripping. -/
def parse_commit_header_stripped (line : Str) : Except FormatError CommitHeader :=
  match line.findIdx? (fun c => c = ':') with
  | none => .error ⟨.NoColumn, none⟩
  | some column_pos =>
    match parse_commit_type_and_scope (line.take column_pos) with
    | .error e => .error e
    | .ok (type_str, scope) =>
      match commit_type_from_str type_str with
      | .error k => .error ⟨k, some ⟨line, 0⟩⟩
      | .ok commit_type =>
        if line.get? (column_pos + 1) ≠ some ' ' then
          .error ⟨.MissingWhitespace, some ⟨line, column_pos + 1⟩⟩
        else if line.drop (column_pos + 2) = [] then
          .error ⟨.EmptyCommitSubject, none⟩
        else if is_trimmed (line.drop (column_pos + 2)) = false then
          .error ⟨.MisplacedWhitespace, none⟩
        else
          .ok ⟨commit_type, scope, line.drop (column_pos + 2)⟩

/-- `parse_commit_header` from `src/parse.rs`: strip the autosquash marker,
then analyse the stripped line. -/
def parse_commit_header (line : Str) : Except FormatError CommitHeader :=
  parse_commit_header_stripped (discard_autosquash line)

/-- Model of Rust `Option::map_or`. -/
def mapOr (o : Option α) (d : β) (f : α → β) : β :=
  match o with
  | some a => f a
  | none => d

/-- `parse_commit_message` from `src/parse.rs`.  The result is `none` when the
source would panic (the unguarded `lines[0]` index on an input with no
lines). -/
def parse_commit_message (message : Str) : Option (Except FormatError CommitMsg) :=
  if mapOr ((rustLines message).get? 1) false (fun l => !l.isEmpty) then
    some (.error ⟨.NonEmptySecondLine, none⟩)
  else
    match (rustLines message).get? 0 with
    | none => none
    | some l0 => some ((parse_commit_header l0).map (fun h => ⟨h⟩))

/-- The caret offset computed in the `CapitalizedFirstLetter` branch of
`validate_commit_message` in `src/lib.rs`. -/
def capitalized_pos (h : CommitHeader) : Nat :=
  (commit_type_to_str h.commit_type).length +
    (match h.scope with
     | some s => s.length + 2
     | none => 0) + 3

/-- `validate_commit_message` from `src/lib.rs`.  The result is `none` when
the source would panic. -/
def validate_commit_message (input : Str) : Option (Except FormatError Unit) :=
  if startsWith "Merge ".data input || startsWith "WIP".data input then
    some (.ok ())
  else
    match parse_commit_message input with
    | none => none
    | some (.error e) => some (.error e)
    | some (.ok message) =>
      match (rustLines input).find? (fun l => decide (100 < l.length)) with
      | some line => some (.error ⟨.LineTooLong 100, some ⟨line, 100⟩⟩)
      | none =>
        match message.header.subject with
        | [] => none
        | c :: _ =>
          if c.isUpper then
            match (rustLines input).get? 0 with
            | none => none
            | some l0 =>
              some (.error ⟨.CapitalizedFirstLetter, some ⟨l0, capitalized_pos message.header⟩⟩)
          else
            some (.ok ())

/-- `splitNl` never returns an empty list of segments. -/
theorem splitNl_ne_nil (s : Str) : splitNl s ≠ [] := by
  cases s with
  | nil => simp [splitNl]
  | cons c cs =>
    unfold splitNl
    split
    · simp
    · split <;> simp

/-- A nonempty input always has at least one line. -/
theorem rustLines_cons_ne_nil (c : Char) (cs : Str) : rustLines (c :: cs) ≠ [] := by
  by_cases hc : c = '\n'
  · subst hc
    obtain ⟨y, ys, hys⟩ : ∃ y ys, splitNl cs = y :: ys := by
      cases h : splitNl cs with
      | nil => exact absurd h (splitNl_ne_nil cs)
      | cons y ys => exact ⟨y, ys, rfl⟩
    have hsp : splitNl ('\n' :: cs) = [] :: y :: ys := by
      unfold splitNl
      rw [if_pos rfl, hys]
    unfold rustLines
    rw [hsp]
    rcases hg : ([] :: y :: ys : List Str).getLast? with _ | x
    · rw [List.getLast?_eq_none_iff] at hg
      simp at hg
    · cases x with
      | nil => simp [hg, List.dropLast_cons₂]
      | cons a t => simp [hg]
  · obtain ⟨y, ys, hys⟩ : ∃ y ys, splitNl cs = y :: ys := by
      cases h : splitNl cs with
      | nil => exact absurd h (splitNl_ne_nil cs)
      | cons y ys => exact ⟨y, ys, rfl⟩
    have hsp : splitNl (c :: cs) = (c :: y) :: ys := by
      unfold splitNl
      rw [if_neg hc, hys]
    unfold rustLines
    rw [hsp]
    cases ys with
    | nil => simp [List.getLast?_singleton]
    | cons z zs =>
      rcases hg : ((c :: y) :: z :: zs : List Str).getLast? with _ | x
      · rw [List.getLast?_eq_none_iff] at hg
        simp at hg
      · cases x with
        | nil => simp [hg, List.dropLast_cons₂]
        | cons a t => simp [hg]

/-- A nonempty input always has at least one line. -/
theorem rustLines_ne_nil {s : Str} (h : s ≠ []) : rustLines s ≠ [] := by
  cases s with
  | nil => exact absurd rfl h
  | cons c cs => exact rustLines_cons_ne_nil c cs

/-- Whenever the second line exists and is nonempty, `parse_commit_message`
reports `NonEmptySecondLine` with no attached span. -/
theorem parse_commit_message_second_line {message l2 : Str}
    (h1 : (rustLines message).get? 1 = some l2) (hne : l2 ≠ []) :
    parse_commit_message message = some (.error ⟨.NonEmptySecondLine, none⟩) := by
  unfold parse_commit_message
  rw [h1]
  have : l2.isEmpty = false := List.isEmpty_eq_false.mpr hne
  simp [mapOr, this]

/-- Whenever the input is not bypassed and its second line exists and is
nonempty, validation reports `NonEmptySecondLine` with no attached span. -/
theorem validate_second_line {input l2 : Str}
    (hb : (startsWith "Merge ".data input || startsWith "WIP".data input) = false)
    (h1 : (rustLines input).get? 1 = some l2) (hne : l2 ≠ []) :
    validate_commit_message input = some (.error ⟨.NonEmptySecondLine, none⟩) := by
  unfold validate_commit_message
  rw [hb, parse_commit_message_second_line h1 hne]
  rfl

/-- A successfully parsed header has a nonempty subject equal to its own
trimmed form. -/
theorem parse_commit_header_stripped_subject {line : Str} {hdr : CommitHeader}
    (h : parse_commit_header_stripped line = .ok hdr) :
    hdr.subject ≠ [] ∧ hdr.subject = trim hdr.subject := by
  unfold parse_commit_header_stripped at h
  split at h
  · simp at h
  · split at h
    · simp at h
    · split at h
      · simp at h
      · split at h
        · simp at h
        · split at h
          · simp at h
          · split at h
            · simp at h
            · rename_i hempty htrim
              injection h with h
              subst h
              refine ⟨hempty, ?_⟩
              simpa [is_trimmed] using htrim

/-- A successfully parsed header (autosquash stripping included) has a
nonempty subject equal to its own trimmed form. -/
theorem parse_commit_header_subject {line : Str} {hdr : CommitHeader}
    (h : parse_commit_header line = .ok hdr) :
    hdr.subject ≠ [] ∧ hdr.subject = trim hdr.subject :=
  parse_commit_header_stripped_subject h

/-- C1 counterexample: validating `"feat: Add commit message validation"`
attaches caret position 7 (type length 4 plus 3) to the
`CapitalizedFirstLetter` fault, not position 6 as the claim states. -/
theorem C1_capitalized_counterexample :
    validate_commit_message "feat: Add commit message validation".data =
      some (.error ⟨.CapitalizedFirstLetter,
        some ⟨"feat: Add commit message validation".data, 7⟩⟩) ∧
    validate_commit_message "feat: Add commit message validation".data ≠
      some (.error ⟨.CapitalizedFirstLetter,
        some ⟨"feat: Add commit message validation".data, 6⟩⟩) := by
  decide

/-- C1 amended: for every non-bypassed message that parses successfully, has
no line longer than 100 characters, and whose parsed subject starts with an
uppercase character, validation fails with `CapitalizedFirstLetter` and the
position attached to the fault equals
`len(type_as_text) + (scope present ? len(scope) + 2 : 0) + 3`. -/
theorem C1_capitalized_theorem (input l0 : Str) (msg : CommitMsg) (c : Char) (cs : Str)
    (hb : (startsWith "Merge ".data input || startsWith "WIP".data input) = false)
    (hp : parse_commit_message input = some (.ok msg))
    (hlen : (rustLines input).find? (fun l => decide (100 < l.length)) = none)
    (hsub : msg.header.subject = c :: cs)
    (hup : c.isUpper = true)
    (h0 : (rustLines input).get? 0 = some l0) :
    validate_commit_message input =
      some (.error ⟨.CapitalizedFirstLetter, some ⟨l0,
        (commit_type_to_str msg.header.commit_type).length +
          (match msg.header.scope with
           | some s => s.length + 2
           | none => 0) + 3⟩⟩) := by
  have h0' : (rustLines input)[0]? = some l0 := by
    rw [← List.get?_eq_getElem?]
    exact h0
  simp [validate_commit_message, hb, hp, hlen, hsub, hup, h0', capitalized_pos]

/-- C1 witness: the amended theorem instantiated at
`"feat: Add commit message validation"`. -/
theorem C1_capitalized_witness :
    validate_commit_message "feat: Add commit message validation".data =
      some (.error ⟨.CapitalizedFirstLetter,
        some ⟨"feat: Add commit message validation".data, 7⟩⟩) :=
  C1_capitalized_theorem "feat: Add commit message validation".data
    "feat: Add commit message validation".data
    ⟨⟨.Feat, none, "Add commit message validation".data⟩⟩
    'A' "dd commit message validation".data
    (by decide) (by decide) (by decide) (by decide) (by decide) (by decide)

/-- C2 counterexample: a second line starting with a hash mark is not dropped;
it triggers the `NonEmptySecondLine` fault. -/
theorem C2_comment_counterexample :
    validate_commit_message "feat: add x\n# comment".data =
      some (.error ⟨.NonEmptySecondLine, none⟩) := by
  decide

/-- C2 amended: `validate_commit_message` performs no comment filtering; every
line takes part in the checks, so a non-bypassed message whose second line
starts with a hash mark fails with `NonEmptySecondLine`, and line indices
refer to the raw line sequence of the input. -/
theorem C2_comment_theorem (input l2 : Str)
    (hb : (startsWith "Merge ".data input || startsWith "WIP".data input) = false)
    (h1 : (rustLines input).get? 1 = some l2)
    (hh : startsWith "#".data l2 = true) :
    validate_commit_message input = some (.error ⟨.NonEmptySecondLine, none⟩) := by
  have hne : l2 ≠ [] := by
    cases l2 with
    | nil => exact absurd hh (by decide)
    | cons a t => simp
  exact validate_second_line hb h1 hne

/-- C2 witness: the amended theorem instantiated at a message whose second
line is a hash comment. -/
theorem C2_comment_witness :
    validate_commit_message "fix: a\n# note".data =
      some (.error ⟨.NonEmptySecondLine, none⟩) :=
  C2_comment_theorem "fix: a\n# note".data "# note".data
    (by decide) (by decide) (by decide)

/-- C3 counterexample: the `NonEmptySecondLine` fault carries no position at
all (its location is `none`); the spanned position of line 2, column 0 that
the claim describes is never attached. -/
theorem C3_second_line_counterexample :
    validate_commit_message "feat: add x\nbody".data =
      some (.error ⟨.NonEmptySecondLine, none⟩) := by
  decide

/-- C3 amended: for every non-bypassed message whose second line exists and is
nonempty, validation fails with `NonEmptySecondLine`, and the fault carries no
position (the error is built by the kind-only conversion that sets the
location to `none`). -/
theorem C3_second_line_theorem (input l2 : Str)
    (hb : (startsWith "Merge ".data input || startsWith "WIP".data input) = false)
    (h1 : (rustLines input).get? 1 = some l2)
    (hne : l2 ≠ []) :
    validate_commit_message input = some (.error ⟨.NonEmptySecondLine, none⟩) :=
  validate_second_line hb h1 hne

/-- C3 witness: the amended theorem instantiated at a message with a nonempty
second line. -/
theorem C3_second_line_witness :
    validate_commit_message "docs: a\nextra".data =
      some (.error ⟨.NonEmptySecondLine, none⟩) :=
  C3_second_line_theorem "docs: a\nextra".data "extra".data
    (by decide) (by decide) (by decide)

/-- C4: the accepted message `"docs: add README.md"` parses to commit type
`Docs`, but the canonical-text conversion maps `Docs` to `"docx"`, so the
reconstruction of the header is `"docx: add README.md"` and the round-trip law
fails; this contradicts `FromStr`, which parses `"docs"` into `Docs`. -/
theorem C4_roundtrip_code_bug :
    validate_commit_message "docs: add README.md".data = some (.ok ()) ∧
    parse_commit_message "docs: add README.md".data =
      some (.ok ⟨⟨CommitType.Docs, none, "add README.md".data⟩⟩) ∧
    commit_type_from_str "docs".data = .ok CommitType.Docs ∧
    commit_type_to_str CommitType.Docs = "docx".data ∧
    commit_type_to_str CommitType.Docs ++ ": ".data ++ "add README.md".data ≠
      "docs: add README.md".data := by
  decide

/-- C5 counterexample: a message whose only line longer than 100 characters is
a hash comment line (which the claim's filtered sequence would drop, leaving
no surviving line over the limit) nevertheless fails with `LineTooLong 100`,
so the length rule does not range over surviving lines only. -/
theorem C5_line_length_counterexample :
    validate_commit_message ("feat: ok\n\n".data ++ List.replicate 101 '#') =
      some (.error ⟨.LineTooLong 100, some ⟨List.replicate 101 '#', 100⟩⟩) := by
  decide

/-- C5 amended: for every non-bypassed message that parses successfully, the
length check ranges over all raw lines of the input (no comment filtering):
validation fails with `LineTooLong 100` at position 100 on the first line
longer than 100 characters, and no `LineTooLong` fault is possible when every
line is at most 100 characters long. -/
theorem C5_line_length_theorem (input : Str) (msg : CommitMsg)
    (hb : (startsWith "Merge ".data input || startsWith "WIP".data input) = false)
    (hp : parse_commit_message input = some (.ok msg)) :
    (∀ line, (rustLines input).find? (fun l => decide (100 < l.length)) = some line →
        validate_commit_message input =
          some (.error ⟨.LineTooLong 100, some ⟨line, 100⟩⟩)) ∧
    ((∀ l ∈ rustLines input, l.length ≤ 100) →
        ∀ loc, validate_commit_message input ≠ some (.error ⟨.LineTooLong 100, loc⟩)) := by
  constructor
  · intro line hfind
    unfold validate_commit_message
    rw [hb, hp, hfind]
    rfl
  · intro hshort loc
    have hfind : (rustLines input).find? (fun l => decide (100 < l.length)) = none :=
      List.find?_eq_none.mpr (fun x hx => by simpa using Nat.not_lt.mpr (hshort x hx))
    unfold validate_commit_message
    rw [hb, hp, hfind]
    cases hsub : msg.header.subject with
    | nil => simp [hsub]
    | cons c cs =>
      by_cases hup : c.isUpper
      · rcases h0 : (rustLines input).get? 0 with _ | l0 <;> simp [hsub, hup, h0]
      · simp [hsub, hup]

/-- C5 witness: a valid header of exactly 101 characters fails with
`LineTooLong 100` at position 100 on that line. -/
theorem C5_line_length_witness :
    validate_commit_message ("feat: ".data ++ List.replicate 95 'a') =
      some (.error ⟨.LineTooLong 100,
        some ⟨"feat: ".data ++ List.replicate 95 'a', 100⟩⟩) :=
  (C5_line_length_theorem ("feat: ".data ++ List.replicate 95 'a')
      ⟨⟨.Feat, none, List.replicate 95 'a'⟩⟩
      (by decide) (by decide)).1
    ("feat: ".data ++ List.replicate 95 'a') (by decide)

/-- C6: every successfully parsed header has a nonempty subject that equals
its own trimmed form. -/
theorem C6_subject_theorem (line : Str) (hdr : CommitHeader)
    (h : parse_commit_header line = .ok hdr) :
    hdr.subject ≠ [] ∧ hdr.subject = trim hdr.subject :=
  parse_commit_header_subject h

/-- C6 witness: the subject invariant instantiated at `"feat: ok"`. -/
theorem C6_subject_witness :
    ("ok".data ≠ ([] : Str)) ∧ "ok".data = trim "ok".data :=
  C6_subject_theorem "feat: ok".data ⟨.Feat, none, "ok".data⟩ (by decide)

/-- C7 counterexample: when the first raw line is a hash comment, a later line
starting with `"Merge "` (the first surviving line in the claim's sense) does
not bypass validation; the message is rejected. -/
theorem C7_bypass_counterexample :
    validate_commit_message "# comment\nMerge branch develop".data =
      some (.error ⟨.NonEmptySecondLine, none⟩) ∧
    validate_commit_message "# comment\nMerge branch develop".data ≠
      some (.ok ()) := by
  decide

/-- C7 amended: the bypass tests the raw input itself (equivalently its first
raw line): whenever the input starts with `"Merge "` or `"WIP"`, validation
accepts unconditionally, regardless of all remaining content. -/
theorem C7_bypass_theorem (input : Str)
    (h : (startsWith "Merge ".data input || startsWith "WIP".data input) = true) :
    validate_commit_message input = some (.ok ()) := by
  unfold validate_commit_message
  rw [h]
  rfl

/-- C7 witness: a message starting with `"Merge "` is accepted even though its
second line is nonempty. -/
theorem C7_bypass_witness :
    validate_commit_message "Merge branch develop\nthis second line is not empty".data =
      some (.ok ()) :=
  C7_bypass_theorem "Merge branch develop\nthis second line is not empty".data
    (by decide)

/-- C8: an autosquash marker is dropped before any further analysis — parsing
a line that starts with `"fixup! "` or `"squash! "` is exactly parsing the
stripped remainder, so all subsequent offsets are computed on the stripped
line — and a line whose remainder after the marker is a valid header is
accepted. -/
theorem C8_autosquash_theorem :
    (∀ line : Str, startsWith "fixup! ".data line = true →
        parse_commit_header line = parse_commit_header_stripped (line.drop 7)) ∧
    (∀ line : Str, startsWith "squash! ".data line = true →
        parse_commit_header line = parse_commit_header_stripped (line.drop 8)) ∧
    validate_commit_message "fixup! feat: add commit message validation".data =
      some (.ok ()) := by
  refine ⟨?_, ?_, by decide⟩
  · intro line h
    unfold parse_commit_header discard_autosquash
    rw [h]
    rfl
  · intro line h
    have hf : startsWith "fixup! ".data line = false := by
      obtain ⟨t, ht⟩ := List.isPrefixOf_iff_prefix.mp h
      subst ht
      rfl
    unfold parse_commit_header discard_autosquash
    rw [hf, h]
    rfl

/-- C8 witness: the stripping law instantiated at
`"fixup! feat: add commit message validation"`. -/
theorem C8_autosquash_witness :
    parse_commit_header "fixup! feat: add commit message validation".data =
      parse_commit_header_stripped
        ("fixup! feat: add commit message validation".data.drop 7) :=
  C8_autosquash_theorem.1 "fixup! feat: add commit message validation".data
    (by decide)

/-- C9: validation is a pure function of its input, so validating the same
message twice yields identical results, fault kind and position included. -/
theorem C9_deterministic_theorem (input : Str) :
    validate_commit_message input = validate_commit_message input := rfl

/-- C10 counterexample: on the empty input the line list is empty and the
source indexes `lines[0]` unguarded; the model returns `none`, the marker for
a panic, instead of a success or fault value. -/
theorem C10_total_counterexample :
    validate_commit_message "".data = none := by
  decide

/-- C10 amended: for every input containing at least one character (hence at
least one line), validation is total: it returns a success or fault value and
never panics.  Only inputs with no lines at all reach the unguarded indexing
of the first line. -/
theorem C10_total_theorem (input : Str) (h : input ≠ []) :
    (validate_commit_message input).isSome = true := by
  have hl : rustLines input ≠ [] := rustLines_ne_nil h
  obtain ⟨l0, rest, hlines⟩ : ∃ l0 rest, rustLines input = l0 :: rest := by
    cases hx : rustLines input with
    | nil => exact absurd hx hl
    | cons a b => exact ⟨a, b, rfl⟩
  have h0 : (rustLines input).get? 0 = some l0 := by rw [hlines]; rfl
  unfold validate_commit_message
  by_cases hbp : (startsWith "Merge ".data input || startsWith "WIP".data input) = true
  · rw [if_pos hbp]
    rfl
  · rw [if_neg hbp]
    by_cases h2 : (mapOr ((rustLines input).get? 1) false (fun l => !l.isEmpty)) = true
    · have hp : parse_commit_message input = some (.error ⟨.NonEmptySecondLine, none⟩) := by
        unfold parse_commit_message
        rw [if_pos h2]
      rw [hp]
      rfl
    · have hp : parse_commit_message input =
          some ((parse_commit_header l0).map (fun hd => ⟨hd⟩)) := by
        unfold parse_commit_message
        rw [if_neg h2, h0]
      rw [hp]
      rcases hh : parse_commit_header l0 with e | hdr
      · simp [hh, Except.map]
      · rcases hfind : (rustLines input).find? (fun l => decide (100 < l.length)) with _ | line
        · obtain ⟨hne, -⟩ := parse_commit_header_subject hh
          rcases hsub : hdr.subject with _ | ⟨c, cs⟩
          · exact absurd hsub hne
          · have h0' : (rustLines input)[0]? = some l0 := by
              rw [← List.get?_eq_getElem?]
              exact h0
            by_cases hup : c.isUpper = true
            · simp [hh, Except.map, hfind, hsub, hup, h0']
            · simp [hh, Except.map, hfind, hsub, hup]
        · simp [hh, Except.map, hfind]

/-- C10 witness: the totality theorem instantiated at a one-character
input. -/
theorem C10_total_witness : (validate_commit_message "a".data).isSome = true :=
  C10_total_theorem "a".data (by decide)

end ValidateCommit
